import Mathlib

/-!
Verification of the CodeGrade submission-evaluation pipeline
(`server/services/openai.ts`, `server/routes.ts`, `shared/schema.ts`).

The TypeScript source is shallowly embedded: pure functions become Lean
functions, JS numbers on the grading paths become `Int`/`Nat` with an
explicit clamp, JS string `includes` becomes list-infix search, the
non-deterministic `Math.random() > 0.2` per-test-case coin becomes an
explicit `Nat → Bool` oracle argument, and the fallible AI critique call
becomes an `Except` argument.
-/

/-- `TestCase` from `shared/schema.ts` (`problemSchema.testCases` element). -/
structure TestCase where
  input : String
  expectedOutput : String
deriving Repr, DecidableEq, Inhabited

/-- `Problem` from `shared/schema.ts` (`problemSchema`).  `difficulty` is the
string enum `easy | medium | hard`. -/
structure Problem where
  id : String
  title : String
  description : String
  inputFormat : String
  outputFormat : String
  constraints : String
  sampleInput : String
  sampleOutput : String
  difficulty : String
  timeLimit : Int
  memoryLimit : Int
  testCases : List TestCase
deriving Repr, DecidableEq, Inhabited

/-- Boolean infix search on character lists: `pat` occurs contiguously in the
second argument. -/
def infixSearch (pat : List Char) : List Char → Bool
  | [] => pat.isEmpty
  | c :: rest => pat.isPrefixOf (c :: rest) || infixSearch pat rest

/-- JS `haystack.includes(needle)`: substring containment, case sensitive. -/
def includes (s pat : String) : Bool :=
  infixSearch pat.toList s.toList

/-- JS `s.toLowerCase()`, character-wise lowering (the titles involved are
ASCII, where JS and Unicode simple lowering agree). -/
def toLowerCase (s : String) : String :=
  (s.toList.map Char.toLower).asString

/-- The analysis record returned by `analyzeCodeBuiltIn` / `analyzeCode`. -/
structure Analysis where
  feedback : String
  suggestions : List String
  score : Int
deriving Repr, DecidableEq, Inhabited

/-- The `score` variable of `analyzeCodeBuiltIn` (`server/services/openai.ts`
lines 181-288): the source mutates `score`, `suggestions` and `feedback` in
one body, but every `score` update depends only on the containment flags and
the title match, so the score pipeline is sliced out verbatim — base 60,
the three structural adjustments, the first matching topic category, the
comment bonus, then the clamp to `[0, 100]`. -/
def builtInScore (code : String) (problem : Problem) : Int :=
  let hasMainFunction := includes code "int main"
  let hasIncludeStdio := includes code "#include <stdio.h>"
  let hasReturnStatement := includes code "return"
  let hasComments := includes code "//" || includes code "/*"
  let hasPrintf := includes code "printf"
  let hasScanf := includes code "scanf"
  let score : Int := 60
  -- Check for basic C structure
  let score := if !hasMainFunction then score - 20 else score + 10
  let score :=
    if !hasIncludeStdio && (hasPrintf || hasScanf) then score - 10
    else if hasIncludeStdio then score + 5
    else score
  let score :=
    if !hasReturnStatement && hasMainFunction then score - 5
    else if hasReturnStatement then score + 5
    else score
  -- Problem-specific analysis, keyed on problem.title.toLowerCase()
  let titleLower := toLowerCase problem.title
  let score :=
    if includes titleLower "hello world" then
      if hasPrintf && includes code "Hello, World!" then score + 20 else score - 15
    else if includes titleLower "sum" then
      if hasScanf && hasPrintf then score + 15 else score - 10
    else if includes titleLower "factorial" then
      if includes code "for" || includes code "while" then score + 15 else score - 10
    else if includes titleLower "array" then
      if includes code "[" && includes code "]" then score + 10 else score - 15
    else score
  -- Code quality checks
  let score := if hasComments then score + 5 else score
  -- Ensure score is within bounds
  max 0 (min 100 score)

/-- The `suggestions` variable of `analyzeCodeBuiltIn`: every source branch
that pushes a suggestion, in source order (the pushes depend only on the
containment flags and the title match, never on `score`/`feedback`),
finishing with the never-empty guard. -/
def builtInSuggestions (code : String) (problem : Problem) : List String :=
  let hasMainFunction := includes code "int main"
  let hasIncludeStdio := includes code "#include <stdio.h>"
  let hasReturnStatement := includes code "return"
  let hasComments := includes code "//" || includes code "/*"
  let hasPrintf := includes code "printf"
  let hasScanf := includes code "scanf"
  let suggestions : List String :=
    if !hasMainFunction then
      ["Your code should include a main function: int main()"]
    else []
  let suggestions :=
    if !hasIncludeStdio && (hasPrintf || hasScanf) then
      suggestions ++ ["Don\x27t forget to include #include <stdio.h> for input/output functions"]
    else suggestions
  let suggestions :=
    if !hasReturnStatement && hasMainFunction then
      suggestions ++ ["Your main function should return a value (usually return 0;)"]
    else suggestions
  let titleLower := toLowerCase problem.title
  let suggestions :=
    if includes titleLower "hello world" then
      if hasPrintf && includes code "Hello, World!" then suggestions
      else suggestions ++ ["Make sure to print exactly \x27Hello, World!\x27 using printf"]
    else if includes titleLower "sum" then
      if hasScanf && hasPrintf then suggestions
      else suggestions ++ ["Remember to use scanf to read input and printf to display the result"]
    else if includes titleLower "factorial" then
      if includes code "for" || includes code "while" then suggestions
      else suggestions ++ ["Consider using a loop (for or while) to calculate factorial"]
    else if includes titleLower "array" then
      if includes code "[" && includes code "]" then suggestions
      else suggestions ++ ["This problem requires working with arrays - declare and use array variables"]
    else suggestions
  let suggestions :=
    if hasComments then suggestions ++ ["Great job adding comments to explain your code!"]
    else suggestions ++ ["Consider adding comments to explain your logic"]
  if suggestions.length == 0 then
    suggestions ++ ["Your code structure looks good! Keep practicing to improve your C programming skills."]
  else suggestions

/-- The `feedback` variable of `analyzeCodeBuiltIn`: the topic-category
sentence (empty when no category matches or the category check fails),
defaulted to the neutral notice, then the qualitative tier keyed on the
final clamped score. -/
def builtInFeedback (code : String) (problem : Problem) : String :=
  let hasPrintf := includes code "printf"
  let hasScanf := includes code "scanf"
  let titleLower := toLowerCase problem.title
  let feedback :=
    if includes titleLower "hello world" then
      if hasPrintf && includes code "Hello, World!" then
        "Great! Your Hello World program looks correct. "
      else ""
    else if includes titleLower "sum" then
      if hasScanf && hasPrintf then
        "Good use of input/output functions for the sum calculation. "
      else ""
    else if includes titleLower "factorial" then
      if includes code "for" || includes code "while" then
        "Good use of loops for factorial calculation. "
      else ""
    else if includes titleLower "array" then
      if includes code "[" && includes code "]" then "Good use of arrays. " else ""
    else ""
  let score := builtInScore code problem
  let feedback := if feedback == "" then "Your code has been analyzed. " else feedback
  if score >= 80 then feedback ++ "Excellent work! Your solution looks well-structured."
  else if score >= 60 then feedback ++ "Good effort! There are some areas for improvement."
  else feedback ++ "Your code needs some work. Check the suggestions below."

/-- `analyzeCodeBuiltIn(code, problem)` from `server/services/openai.ts`
(lines 181-288), assembled from the three per-variable slices above. -/
def analyzeCodeBuiltIn (code : String) (problem : Problem) : Analysis :=
  { feedback := builtInFeedback code problem,
    suggestions := builtInSuggestions code problem,
    score := builtInScore code problem }

/-- A requested per-difficulty problem count, the `difficulty` parameter of
`generateSampleProblems` (`\x7b easy: number; medium: number; hard: number \x7d`). -/
structure DifficultyDist where
  easy : Nat
  medium : Nat
  hard : Nat
deriving Repr, DecidableEq

/-- One entry of the `problemTemplates` bank in `generateSampleProblems`:
all `Problem` fields except the ones stamped per difficulty block. -/
structure ProblemTemplate where
  title : String
  description : String
  inputFormat : String
  outputFormat : String
  constraints : String
  sampleInput : String
  sampleOutput : String
  testCases : List TestCase
deriving Repr, DecidableEq, Inhabited

/-- `problemTemplates.easy` from `generateSampleProblems` (lines 14-55). -/
def easyTemplates : List ProblemTemplate :=
  [{ title := "Hello World Program",
     description := "Write a C program that prints \x27Hello, World!\x27 to the console.",
     inputFormat := "No input required.",
     outputFormat := "Print \x27Hello, World!\x27 followed by a newline.",
     constraints := "None",
     sampleInput := "",
     sampleOutput := "Hello, World!",
     testCases := [{ input := "", expectedOutput := "Hello, World!" }] },
   { title := "Sum of Two Numbers",
     description := "Write a C program that reads two integers and prints their sum.",
     inputFormat := "Two integers a and b separated by a space.",
     outputFormat := "Print the sum of a and b.",
     constraints := "1 ≤ a, b ≤ 1000",
     sampleInput := "5 3",
     sampleOutput := "8",
     testCases := [{ input := "5 3", expectedOutput := "8" },
                   { input := "10 20", expectedOutput := "30" },
                   { input := "1 1", expectedOutput := "2" }] },
   { title := "Even or Odd",
     description := "Write a C program that checks if a number is even or odd.",
     inputFormat := "A single integer n.",
     outputFormat := "Print \x27Even\x27 if n is even, \x27Odd\x27 if n is odd.",
     constraints := "1 ≤ n ≤ 1000",
     sampleInput := "4",
     sampleOutput := "Even",
     testCases := [{ input := "4", expectedOutput := "Even" },
                   { input := "7", expectedOutput := "Odd" },
                   { input := "100", expectedOutput := "Even" }] }]

/-- `problemTemplates.medium` from `generateSampleProblems` (lines 56-85). -/
def mediumTemplates : List ProblemTemplate :=
  [{ title := "Factorial Calculator",
     description := "Write a C program to calculate the factorial of a given number using iteration.",
     inputFormat := "A single integer n.",
     outputFormat := "Print the factorial of n.",
     constraints := "0 ≤ n ≤ 10",
     sampleInput := "5",
     sampleOutput := "120",
     testCases := [{ input := "5", expectedOutput := "120" },
                   { input := "0", expectedOutput := "1" },
                   { input := "3", expectedOutput := "6" }] },
   { title := "Array Sum",
     description := "Write a C program that calculates the sum of all elements in an array.",
     inputFormat := "First line contains n (size of array). Second line contains n integers.",
     outputFormat := "Print the sum of all elements.",
     constraints := "1 ≤ n ≤ 100, 1 ≤ arr[i] ≤ 1000",
     sampleInput := "5\n1 2 3 4 5",
     sampleOutput := "15",
     testCases := [{ input := "5\n1 2 3 4 5", expectedOutput := "15" },
                   { input := "3\n10 20 30", expectedOutput := "60" },
                   { input := "1\n42", expectedOutput := "42" }] }]

/-- `problemTemplates.hard` from `generateSampleProblems` (lines 86-115). -/
def hardTemplates : List ProblemTemplate :=
  [{ title := "Prime Number Check",
     description := "Write a C program to check if a given number is prime. Use efficient algorithm.",
     inputFormat := "A single integer n.",
     outputFormat := "Print \x27Prime\x27 if n is prime, \x27Not Prime\x27 otherwise.",
     constraints := "2 ≤ n ≤ 10000",
     sampleInput := "17",
     sampleOutput := "Prime",
     testCases := [{ input := "17", expectedOutput := "Prime" },
                   { input := "4", expectedOutput := "Not Prime" },
                   { input := "2", expectedOutput := "Prime" }] },
   { title := "Binary Search Implementation",
     description := "Implement binary search algorithm to find an element in a sorted array.",
     inputFormat := "First line: n (array size), target. Second line: n sorted integers.",
     outputFormat := "Print the index of target (0-based) or -1 if not found.",
     constraints := "1 ≤ n ≤ 1000, elements are sorted in ascending order",
     sampleInput := "5 7\n1 3 5 7 9",
     sampleOutput := "3",
     testCases := [{ input := "5 7\n1 3 5 7 9", expectedOutput := "3" },
                   { input := "5 6\n1 3 5 7 9", expectedOutput := "-1" },
                   { input := "3 1\n1 2 3", expectedOutput := "0" }] }]

/-- `generateSampleProblems(topic, difficulty)` from `server/services/openai.ts`
(lines 10-178): three blocks (easy, medium, hard) appended in order; the i-th
problem of a block uses template `i mod bank_size`; the mutable `problemId`
counter (starting at 1, incremented at each push) is rendered as explicit
offset arithmetic per block. -/
def generateSampleProblems (topic : String) (difficulty : DifficultyDist) : List Problem :=
  let easyProblems := (List.range difficulty.easy).map (fun i =>
    let template := easyTemplates.getD (i % easyTemplates.length) default
    { id := "problem_" ++ Nat.repr (i + 1),
      title := topic ++ " - " ++ template.title,
      description := template.description,
      inputFormat := template.inputFormat,
      outputFormat := template.outputFormat,
      constraints := template.constraints,
      sampleInput := template.sampleInput,
      sampleOutput := template.sampleOutput,
      difficulty := "easy",
      timeLimit := 1,
      memoryLimit := 64,
      testCases := template.testCases })
  let mediumProblems := (List.range difficulty.medium).map (fun i =>
    let template := mediumTemplates.getD (i % mediumTemplates.length) default
    { id := "problem_" ++ Nat.repr (difficulty.easy + i + 1),
      title := topic ++ " - " ++ template.title,
      description := template.description,
      inputFormat := template.inputFormat,
      outputFormat := template.outputFormat,
      constraints := template.constraints,
      sampleInput := template.sampleInput,
      sampleOutput := template.sampleOutput,
      difficulty := "medium",
      timeLimit := 2,
      memoryLimit := 128,
      testCases := template.testCases })
  let hardProblems := (List.range difficulty.hard).map (fun i =>
    let template := hardTemplates.getD (i % hardTemplates.length) default
    { id := "problem_" ++ Nat.repr (difficulty.easy + difficulty.medium + i + 1),
      title := topic ++ " - " ++ template.title,
      description := template.description,
      inputFormat := template.inputFormat,
      outputFormat := template.outputFormat,
      constraints := template.constraints,
      sampleInput := template.sampleInput,
      sampleOutput := template.sampleOutput,
      difficulty := "hard",
      timeLimit := 5,
      memoryLimit := 256,
      testCases := template.testCases })
  easyProblems ++ mediumProblems ++ hardProblems

/-- The raw JSON-shaped payload the remote critique call may return
(`result.suggestions` and `result.score` may be absent, mirrored by
`Option`; `analyzeCode` applies `|| []` / `|| 0` defaults). -/
structure RawAnalysis where
  feedback : String
  suggestions : Option (List String)
  score : Option Int
deriving Repr, DecidableEq

/-- `analyzeCode(code, problem)` from `server/services/openai.ts`
(lines 357-413).  The module-level `openai` client (null when no
`OPENAI_API_KEY` is configured) becomes the `provider` argument; the remote
chat-completion call becomes the provider function itself, returning
`Except` (the error case models a thrown/failed call or unparseable
content). -/
def analyzeCode (provider : Option (String → Problem → Except String RawAnalysis))
    (code : String) (problem : Problem) : Except String Analysis :=
  match provider with
  | none => Except.ok (analyzeCodeBuiltIn code problem)
  | some complete =>
    match complete code problem with
    | Except.ok result =>
      Except.ok
        { feedback := result.feedback,
          suggestions := result.suggestions.getD [],
          score := max 0 (min 100 (result.score.getD 0)) }
    | Except.error e => Except.error ("Failed to analyze code: " ++ e)

/-- One entry of the `testResults` array built by the `POST /api/submissions`
handler in `server/routes.ts`; absent JS object fields are `none`. -/
structure TestResultEntry where
  testCase : Nat
  passed : Bool
  output : Option String
  expected : Option String
  error : Option String
deriving Repr, DecidableEq

/-- The single synthetic test result persisted when the structural pre-check
fails (`routes.ts` lines 711-713). -/
def missingStructureEntry : TestResultEntry :=
  { testCase := 1, passed := false, output := none, expected := none,
    error := some "Missing required C structure" }

/-- The `status`/`testResults`/`score` triple computed by the simulated
execution block of the submissions handler. -/
structure SimResult where
  status : String
  testResults : List TestResultEntry
  score : Int
deriving Repr, DecidableEq

/-- The simulated-execution portion of the `POST /api/submissions` handler
(`server/routes.ts` lines 697-726): structural pre-check, then one synthetic
outcome per test case.  `randomness index` stands for the JS coin
`Math.random() > 0.2` drawn for that test case.  The aggregate
`Math.round((passedCount / total) * 100)` is `(200 * passed + total) / (2 * total)`
in natural division (round half up); when `total = 0` JS produces `NaN`
(whereas this model yields `0`), so theorems touching that branch assume a
non-empty test-case list. -/
def simulate (code : String) (problem : Problem) (randomness : Nat → Bool) : SimResult :=
  let hasMainFunction := includes code "int main"
  let hasInclude := includes code "#include"
  let hasReturn := includes code "return"
  if !hasMainFunction || !hasInclude || !hasReturn then
    { status := "failed", score := 20, testResults := [missingStructureEntry] }
  else
    let testResults := (List.range problem.testCases.length).map (fun index =>
      { testCase := index + 1, passed := randomness index,
        output := some problem.sampleOutput, expected := some problem.sampleOutput,
        error := none })
    let passedCount := (testResults.filter (fun r => r.passed)).length
    let total := testResults.length
    let score : Int := Int.ofNat ((200 * passedCount + total) / (2 * total))
    let status := if score >= 60 then "passed" else "failed"
    { status := status, testResults := testResults, score := score }

/-- The `insertSubmissionSchema`-parsed request body of `POST /api/submissions`
(`studentId` merged from the session). -/
structure SubmissionData where
  studentId : String
  assignmentId : String
  problemIndex : Nat
  code : String
deriving Repr, DecidableEq

/-- `Assignment` from `shared/schema.ts` (fields relevant to the evaluation
pipeline; timestamps are omitted as no modelled code reads them). -/
structure Assignment where
  id : String
  title : String
  description : String
  teacherId : String
  problems : List Problem
  timeLimit : Option Int
  isActive : Bool
deriving Repr, DecidableEq

/-- A persisted `Submission` row as built by `storage.createSubmission`
(generated id and `submittedAt` timestamp omitted; they are random/clock
values never read by the modelled code). -/
structure SubmissionRec where
  studentId : String
  assignmentId : String
  problemIndex : Nat
  code : String
  status : String
  testResults : List TestResultEntry
  score : Int
deriving Repr, DecidableEq

/-- The HTTP outcome of `POST /api/submissions` relevant to the claims. -/
inductive SubmitResponse where
  | ok (submission : SubmissionRec) (testResults : List TestResultEntry)
      (feedback : String) (suggestions : List String)
  | notFound (message : String)
  | badRequest (message : String)
deriving Repr, DecidableEq

/-- The `POST /api/submissions` handler from `server/routes.ts`
(lines 674-764), from assignment resolution onwards (the session/role gate
and zod parse precede any state access and are not claimed about).
`lookup` is the `storage.getAssignment` result; `analysisResult` the outcome
of the `analyzeCode` call (`Except.error` = the awaited call threw, landing
in the `catch (aiError)` fallback); `submissions` the repository state.
Returns the HTTP response and the new repository state. -/
def postSubmissions (lookup : Option Assignment) (data : SubmissionData)
    (randomness : Nat → Bool) (analysisResult : Except String Analysis)
    (submissions : List SubmissionRec) : SubmitResponse × List SubmissionRec :=
  match lookup with
  | none => (SubmitResponse.notFound "Assignment not found or inactive", submissions)
  | some assignment =>
    if !assignment.isActive then
      (SubmitResponse.notFound "Assignment not found or inactive", submissions)
    else
      match assignment.problems[data.problemIndex]? with
      | none => (SubmitResponse.badRequest "Invalid problem index", submissions)
      | some problem =>
        let sim := simulate data.code problem randomness
        match analysisResult with
        | Except.ok aiAnalysis =>
          let submission : SubmissionRec :=
            { studentId := data.studentId, assignmentId := data.assignmentId,
              problemIndex := data.problemIndex, code := data.code,
              status := sim.status, testResults := sim.testResults,
              score := min sim.score aiAnalysis.score }
          (SubmitResponse.ok submission sim.testResults aiAnalysis.feedback
            aiAnalysis.suggestions, submissions ++ [submission])
        | Except.error _ =>
          let submission : SubmissionRec :=
            { studentId := data.studentId, assignmentId := data.assignmentId,
              problemIndex := data.problemIndex, code := data.code,
              status := sim.status, testResults := sim.testResults,
              score := sim.score }
          (SubmitResponse.ok submission sim.testResults
            "Code submitted successfully. Basic validation completed." [],
            submissions ++ [submission])

/-- Decimal value of an ASCII digit character. -/
def digitVal (c : Char) : Nat := c.toNat - Char.toNat '0'

/-- Decimal value of a digit-character list, most significant first. -/
def charsVal (l : List Char) : Nat :=
  l.foldl (fun acc c => 10 * acc + digitVal c) 0

/-- A small fixture problem used by concrete witnesses. -/
def sampleProblem : Problem :=
  { id := "problem_1", title := "Hello World Program",
    description := "Write a C program that prints \x27Hello, World!\x27 to the console.",
    inputFormat := "No input required.",
    outputFormat := "Print \x27Hello, World!\x27 followed by a newline.",
    constraints := "None", sampleInput := "", sampleOutput := "Hello, World!",
    difficulty := "easy", timeLimit := 1, memoryLimit := 64,
    testCases := [{ input := "", expectedOutput := "Hello, World!" }] }

/-- A fixture assignment wrapping `sampleProblem`, used by concrete witnesses. -/
def sampleAssignment : Assignment :=
  { id := "assignment_1", title := "Hello World Assignment",
    description := "intro", teacherId := "teacher_1",
    problems := [sampleProblem], timeLimit := some 180, isActive := true }

/-- A fixture submission body whose code fails the structural pre-check. -/
def sampleSubmissionData : SubmissionData :=
  { studentId := "student_1", assignmentId := "assignment_1",
    problemIndex := 0, code := "printf" }

/-- A fixture submission body addressing a problem index out of range. -/
def outOfRangeSubmission : SubmissionData :=
  { studentId := "student_1", assignmentId := "assignment_1",
    problemIndex := 1, code := "x" }

/-! ## Helper lemmas -/

theorem charsVal_append_singleton (l : List Char) (c : Char) :
    charsVal (l ++ [c]) = 10 * charsVal l + digitVal c := by
  simp [charsVal, List.foldl_append]

theorem digitVal_digitChar (d : Nat) (h : d < 10) :
    digitVal (Nat.digitChar d) = d := by
  interval_cases d <;> rfl

theorem toDigitsCore_eq_append (b f n : Nat) (acc : List Char) :
    Nat.toDigitsCore b f n acc = Nat.toDigitsCore b f n [] ++ acc := by
  induction f generalizing n acc with
  | zero => simp [Nat.toDigitsCore]
  | succ f ih =>
    simp only [Nat.toDigitsCore]
    by_cases h : n / b = 0
    · simp [h]
    · rw [if_neg h, if_neg h, ih (n / b) (Nat.digitChar (n % b) :: acc),
        ih (n / b) [Nat.digitChar (n % b)], List.append_assoc]
      rfl

theorem charsVal_toDigitsCore (f n : Nat) (h : n < f) :
    charsVal (Nat.toDigitsCore 10 f n []) = n := by
  induction f generalizing n with
  | zero => omega
  | succ f ih =>
    simp only [Nat.toDigitsCore]
    by_cases h10 : n / 10 = 0
    · have hn : n < 10 := by omega
      rw [if_pos h10]
      have : charsVal [Nat.digitChar (n % 10)] = digitVal (Nat.digitChar (n % 10)) := by
        simp [charsVal]
      rw [this, digitVal_digitChar (n % 10) (Nat.mod_lt n (by norm_num)),
        Nat.mod_eq_of_lt hn]
    · rw [if_neg h10, toDigitsCore_eq_append, charsVal_append_singleton,
        ih (n / 10) (by have := Nat.div_lt_self (by omega : 0 < n) (by norm_num : 1 < 10); omega),
        digitVal_digitChar (n % 10) (Nat.mod_lt n (by omega))]
      omega

theorem charsVal_data_repr (n : Nat) : charsVal (Nat.repr n).data = n := by
  have : (Nat.repr n).data = Nat.toDigitsCore 10 (n + 1) n [] := rfl
  rw [this]
  exact charsVal_toDigitsCore (n + 1) n (Nat.lt_succ_self n)

theorem nat_repr_injective (a b : Nat) (h : Nat.repr a = Nat.repr b) : a = b := by
  have := congrArg (fun s => charsVal s.data) h
  simpa [charsVal_data_repr] using this

theorem string_append_data (a b : String) : (a ++ b).data = a.data ++ b.data := by
  cases a; cases b; rfl

theorem string_append_left_cancel (a b c : String) (h : a ++ b = a ++ c) : b = c := by
  have hd := congrArg String.data h
  rw [string_append_data, string_append_data] at hd
  exact congrArg String.mk (List.append_cancel_left hd)

/-! ## Claims about the heuristic analyzer -/

/-- C4: for every code string and every problem, the score returned by
`analyzeCodeBuiltIn` lies in the interval `[0, 100]`. -/
theorem analyzeCodeBuiltIn_score_in_range (code : String) (problem : Problem) :
    0 ≤ (analyzeCodeBuiltIn code problem).score ∧
      (analyzeCodeBuiltIn code problem).score ≤ 100 := by
  show 0 ≤ builtInScore code problem ∧ builtInScore code problem ≤ 100
  unfold builtInScore
  dsimp only
  exact ⟨le_max_left 0 _, max_le (by norm_num) (min_le_left _ _)⟩

/-- C10: for every code string and every problem, the heuristic analyzer's
score is at least 15 — the worst reachable pre-clamp total is
60 − 20 (no entry point) − 10 (missing stdio include while printf/scanf
used) − 15 (worst topic-category miss), and the −5 missing-return penalty
requires the +10 entry-point bonus, so the lower clamp to 0 never binds. -/
theorem analyzeCodeBuiltIn_score_ge_15 (code : String) (problem : Problem) :
    15 ≤ (analyzeCodeBuiltIn code problem).score := by
  show 15 ≤ builtInScore code problem
  unfold builtInScore
  dsimp only
  generalize includes code "int main" = b1
  generalize includes code "#include <stdio.h>" = b2
  generalize includes code "return" = b3
  generalize (includes code "//" || includes code "/*") = bc
  generalize includes code "printf" = b6
  generalize includes code "scanf" = b7
  generalize includes (toLowerCase problem.title) "hello world" = b8
  generalize includes code "Hello, World!" = b9
  generalize includes (toLowerCase problem.title) "sum" = b10
  generalize includes (toLowerCase problem.title) "factorial" = b11
  generalize (includes code "for" || includes code "while") = bfw
  generalize includes (toLowerCase problem.title) "array" = b14
  generalize (includes code "[" && includes code "]") = bbr
  revert b1 b2 b3 bc b6 b7 b8 b9 b10 b11 bfw b14 bbr
  decide

/-- C9: for every code string and every problem, the suggestions list
returned by `analyzeCodeBuiltIn` is non-empty (positive length). -/
theorem analyzeCodeBuiltIn_suggestions_nonempty (code : String) (problem : Problem) :
    0 < (analyzeCodeBuiltIn code problem).suggestions.length := by
  show 0 < (builtInSuggestions code problem).length
  unfold builtInSuggestions
  dsimp only
  generalize includes code "int main" = b1
  generalize includes code "#include <stdio.h>" = b2
  generalize includes code "return" = b3
  generalize (includes code "//" || includes code "/*") = bc
  generalize includes code "printf" = b6
  generalize includes code "scanf" = b7
  generalize includes (toLowerCase problem.title) "hello world" = b8
  generalize includes code "Hello, World!" = b9
  generalize includes (toLowerCase problem.title) "sum" = b10
  generalize includes (toLowerCase problem.title) "factorial" = b11
  generalize (includes code "for" || includes code "while") = bfw
  generalize includes (toLowerCase problem.title) "array" = b14
  generalize (includes code "[" && includes code "]") = bbr
  revert b1 b2 b3 bc b6 b7 b8 b9 b10 b11 bfw b14 bbr
  decide

/-- C8: the heuristic analyzer is a pure deterministic function — two
invocations on identical `(code, problem)` inputs return the same feedback
string, the same suggestions sequence and the same score. -/
theorem analyzeCodeBuiltIn_deterministic (code₁ : String) (problem₁ : Problem)
    (code₂ : String) (problem₂ : Problem)
    (hc : code₁ = code₂) (hp : problem₁ = problem₂) :
    (analyzeCodeBuiltIn code₁ problem₁).feedback = (analyzeCodeBuiltIn code₂ problem₂).feedback ∧
    (analyzeCodeBuiltIn code₁ problem₁).suggestions =
      (analyzeCodeBuiltIn code₂ problem₂).suggestions ∧
    (analyzeCodeBuiltIn code₁ problem₁).score = (analyzeCodeBuiltIn code₂ problem₂).score := by
  subst hc; subst hp
  exact ⟨rfl, rfl, rfl⟩

/-- Witness for C8 at a concrete input pair. -/
theorem analyzeCodeBuiltIn_deterministic_witness :
    (analyzeCodeBuiltIn "int main" sampleProblem).feedback =
      (analyzeCodeBuiltIn "int main" sampleProblem).feedback ∧
    (analyzeCodeBuiltIn "int main" sampleProblem).suggestions =
      (analyzeCodeBuiltIn "int main" sampleProblem).suggestions ∧
    (analyzeCodeBuiltIn "int main" sampleProblem).score =
      (analyzeCodeBuiltIn "int main" sampleProblem).score :=
  analyzeCodeBuiltIn_deterministic "int main" sampleProblem "int main" sampleProblem rfl rfl

/-- C5: with no AI credential configured (provider `null`), `analyzeCode`
returns exactly the built-in heuristic result for every input pair. -/
theorem analyzeCode_none_eq_builtin (code : String) (problem : Problem) :
    analyzeCode none code problem = Except.ok (analyzeCodeBuiltIn code problem) :=
  rfl

/-! ## Claims about the template-fallback generator -/

/-- C3: in template-fallback mode, `generate` returns exactly
easy+medium+hard problems — the easy block (difficulty "easy", timeLimit 1,
memoryLimit 64), then the medium block (2s/128MB), then the hard block
(5s/256MB); the i-th problem of each block uses template `i mod bank_size`;
titles are the topic, " - ", then the template title; ids are
`problem_(position+1)` sequentially in output order, hence unique and
strictly increasing within the batch. -/
theorem generateSampleProblems_spec (topic : String) (d : DifficultyDist) :
    (generateSampleProblems topic d).length = d.easy + d.medium + d.hard ∧
    (∀ i, i < d.easy →
      ((generateSampleProblems topic d)[i]?.map fun p =>
          (p.difficulty, p.timeLimit, p.memoryLimit, p.title, p.id)) =
        some ("easy", 1, 64,
          topic ++ " - " ++ (easyTemplates.getD (i % easyTemplates.length) default).title,
          "problem_" ++ Nat.repr (i + 1))) ∧
    (∀ i, i < d.medium →
      ((generateSampleProblems topic d)[d.easy + i]?.map fun p =>
          (p.difficulty, p.timeLimit, p.memoryLimit, p.title, p.id)) =
        some ("medium", 2, 128,
          topic ++ " - " ++ (mediumTemplates.getD (i % mediumTemplates.length) default).title,
          "problem_" ++ Nat.repr (d.easy + i + 1))) ∧
    (∀ i, i < d.hard →
      ((generateSampleProblems topic d)[d.easy + d.medium + i]?.map fun p =>
          (p.difficulty, p.timeLimit, p.memoryLimit, p.title, p.id)) =
        some ("hard", 5, 256,
          topic ++ " - " ++ (hardTemplates.getD (i % hardTemplates.length) default).title,
          "problem_" ++ Nat.repr (d.easy + d.medium + i + 1))) ∧
    (∀ (i : Nat) (p : Problem), (generateSampleProblems topic d)[i]? = some p →
      p.id = "problem_" ++ Nat.repr (i + 1)) ∧
    (∀ (i j : Nat) (p q : Problem), (generateSampleProblems topic d)[i]? = some p →
      (generateSampleProblems topic d)[j]? = some q → p.id = q.id → i = j) := by
  have hlen : (generateSampleProblems topic d).length = d.easy + d.medium + d.hard := by
    unfold generateSampleProblems
    dsimp only
    simp only [List.length_append, List.length_map, List.length_range]
  have heasy : ∀ i, i < d.easy →
      ((generateSampleProblems topic d)[i]?.map fun p =>
          (p.difficulty, p.timeLimit, p.memoryLimit, p.title, p.id)) =
        some ("easy", 1, 64,
          topic ++ " - " ++ (easyTemplates.getD (i % easyTemplates.length) default).title,
          "problem_" ++ Nat.repr (i + 1)) := by
    intro i hi
    unfold generateSampleProblems
    dsimp only
    rw [List.getElem?_append_left
        (by simp only [List.length_append, List.length_map, List.length_range]; omega),
      List.getElem?_append_left (by simp only [List.length_map, List.length_range]; omega),
      List.getElem?_map, List.getElem?_range hi]
    rfl
  have hmed : ∀ i, i < d.medium →
      ((generateSampleProblems topic d)[d.easy + i]?.map fun p =>
          (p.difficulty, p.timeLimit, p.memoryLimit, p.title, p.id)) =
        some ("medium", 2, 128,
          topic ++ " - " ++ (mediumTemplates.getD (i % mediumTemplates.length) default).title,
          "problem_" ++ Nat.repr (d.easy + i + 1)) := by
    intro i hi
    unfold generateSampleProblems
    dsimp only
    rw [List.getElem?_append_left
        (by simp only [List.length_append, List.length_map, List.length_range]; omega),
      List.getElem?_append_right (by simp only [List.length_map, List.length_range]; omega)]
    simp only [List.length_map, List.length_range, Nat.add_sub_cancel_left]
    rw [List.getElem?_map, List.getElem?_range hi]
    rfl
  have hhard : ∀ i, i < d.hard →
      ((generateSampleProblems topic d)[d.easy + d.medium + i]?.map fun p =>
          (p.difficulty, p.timeLimit, p.memoryLimit, p.title, p.id)) =
        some ("hard", 5, 256,
          topic ++ " - " ++ (hardTemplates.getD (i % hardTemplates.length) default).title,
          "problem_" ++ Nat.repr (d.easy + d.medium + i + 1)) := by
    intro i hi
    unfold generateSampleProblems
    dsimp only
    rw [List.getElem?_append_right
        (by simp only [List.length_append, List.length_map, List.length_range]; omega)]
    simp only [List.length_append, List.length_map, List.length_range]
    rw [show d.easy + d.medium + i - (d.easy + d.medium) = i from by omega,
      List.getElem?_map, List.getElem?_range hi]
    rfl
  have hid : ∀ (i : Nat) (p : Problem), (generateSampleProblems topic d)[i]? = some p →
      p.id = "problem_" ++ Nat.repr (i + 1) := by
    intro i p hp
    have hibound : i < d.easy + d.medium + d.hard := by
      by_contra hge
      rw [List.getElem?_eq_none (by rw [hlen]; omega)] at hp
      simp at hp
    by_cases h1 : i < d.easy
    · have h := heasy i h1
      rw [hp] at h
      simp at h
      exact h.2.2.2.2
    · by_cases h2 : i < d.easy + d.medium
      · have h2i : i - d.easy < d.medium := by omega
        have h := hmed (i - d.easy) h2i
        rw [show d.easy + (i - d.easy) = i from by omega, hp] at h
        simp at h
        exact h.2.2.2.2
      · have h3i : i - d.easy - d.medium < d.hard := by omega
        have h := hhard (i - d.easy - d.medium) h3i
        rw [show d.easy + d.medium + (i - d.easy - d.medium) = i from by omega, hp] at h
        simp at h
        exact h.2.2.2.2
  refine ⟨hlen, heasy, hmed, hhard, hid, ?_⟩
  intro i j p q hp hq hpq
  rw [hid i p hp, hid j q hq] at hpq
  have := nat_repr_injective (i + 1) (j + 1) (string_append_left_cancel _ _ _ hpq)
  omega

/-- Witness for C3 at topic "Recursion" and distribution (easy 2, medium 0,
hard 0) — the spec's Scenario C. -/
theorem generateSampleProblems_spec_witness :
    (generateSampleProblems "Recursion" ⟨2, 0, 0⟩).length = 2 ∧
    ((generateSampleProblems "Recursion" ⟨2, 0, 0⟩)[0]?.map fun p =>
        (p.difficulty, p.timeLimit, p.memoryLimit, p.title, p.id)) =
      some ("easy", 1, 64,
        "Recursion" ++ " - " ++ (easyTemplates.getD (0 % easyTemplates.length) default).title,
        "problem_" ++ Nat.repr (0 + 1)) ∧
    ((generateSampleProblems "Recursion" ⟨2, 0, 0⟩)[1]?.map fun p =>
        (p.difficulty, p.timeLimit, p.memoryLimit, p.title, p.id)) =
      some ("easy", 1, 64,
        "Recursion" ++ " - " ++ (easyTemplates.getD (1 % easyTemplates.length) default).title,
        "problem_" ++ Nat.repr (1 + 1)) := by
  have h := generateSampleProblems_spec "Recursion" ⟨2, 0, 0⟩
  exact ⟨h.1, h.2.1 0 (by decide), h.2.1 1 (by decide)⟩

/-! ## Claims about the submission-evaluation orchestrator -/

theorem postSubmissions_ok_eq (assignment : Assignment) (data : SubmissionData)
    (randomness : Nat → Bool) (a : Analysis)
    (submissions : List SubmissionRec) (problem : Problem)
    (hActive : assignment.isActive = true)
    (hProblem : assignment.problems[data.problemIndex]? = some problem) :
    postSubmissions (some assignment) data randomness (Except.ok a) submissions =
      (SubmitResponse.ok
        { studentId := data.studentId, assignmentId := data.assignmentId,
          problemIndex := data.problemIndex, code := data.code,
          status := (simulate data.code problem randomness).status,
          testResults := (simulate data.code problem randomness).testResults,
          score := min (simulate data.code problem randomness).score a.score }
        (simulate data.code problem randomness).testResults a.feedback a.suggestions,
       submissions ++
        [{ studentId := data.studentId, assignmentId := data.assignmentId,
           problemIndex := data.problemIndex, code := data.code,
           status := (simulate data.code problem randomness).status,
           testResults := (simulate data.code problem randomness).testResults,
           score := min (simulate data.code problem randomness).score a.score }]) := by
  simp only [postSubmissions, hActive, hProblem, Bool.not_true, Bool.false_eq_true, if_false]

theorem postSubmissions_error_eq (assignment : Assignment)
    (data : SubmissionData) (randomness : Nat → Bool) (e : String)
    (submissions : List SubmissionRec) (problem : Problem)
    (hActive : assignment.isActive = true)
    (hProblem : assignment.problems[data.problemIndex]? = some problem) :
    postSubmissions (some assignment) data randomness (Except.error e) submissions =
      (SubmitResponse.ok
        { studentId := data.studentId, assignmentId := data.assignmentId,
          problemIndex := data.problemIndex, code := data.code,
          status := (simulate data.code problem randomness).status,
          testResults := (simulate data.code problem randomness).testResults,
          score := (simulate data.code problem randomness).score }
        (simulate data.code problem randomness).testResults
        "Code submitted successfully. Basic validation completed." [],
        submissions ++
          [{ studentId := data.studentId, assignmentId := data.assignmentId,
             problemIndex := data.problemIndex, code := data.code,
             status := (simulate data.code problem randomness).status,
             testResults := (simulate data.code problem randomness).testResults,
             score := (simulate data.code problem randomness).score }]) := by
  simp only [postSubmissions, hActive, hProblem, Bool.not_true, Bool.false_eq_true, if_false]

theorem simulate_precheck_failed (code : String) (problem : Problem)
    (randomness : Nat → Bool)
    (hPre : (includes code "int main" && includes code "#include" &&
      includes code "return") = false) :
    simulate code problem randomness =
      { status := "failed", testResults := [missingStructureEntry], score := 20 } := by
  have hcond : (!includes code "int main" || !includes code "#include" ||
      !includes code "return") = true := by
    cases h1 : includes code "int main" <;> cases h2 : includes code "#include" <;>
      cases h3 : includes code "return" <;> simp_all
  simp only [simulate, hcond, if_true]

/-- C1 (amended): when the submitted code fails the structural pre-check, the
simulated result is `status="failed"`, score 20 and the single synthetic
test-result entry, regardless of the problem's test cases; the persisted
score, however, is the minimum of 20 and the analysis score — hence `≤ 20`,
and exactly 20 only when the analysis call fails (or its score is `≥ 20`),
not always exactly 20 as originally claimed. -/
theorem precheck_failure_status_and_merged_score (assignment : Assignment)
    (data : SubmissionData) (randomness : Nat → Bool)
    (analysisResult : Except String Analysis)
    (submissions : List SubmissionRec) (problem : Problem)
    (hActive : assignment.isActive = true)
    (hProblem : assignment.problems[data.problemIndex]? = some problem)
    (hPre : (includes data.code "int main" && includes data.code "#include" &&
      includes data.code "return") = false) :
    simulate data.code problem randomness =
      { status := "failed", testResults := [missingStructureEntry], score := 20 } ∧
    (∃ sub fb sg,
      (postSubmissions (some assignment) data randomness analysisResult submissions).1 =
        SubmitResponse.ok sub [missingStructureEntry] fb sg ∧
      (postSubmissions (some assignment) data randomness analysisResult submissions).2 =
        submissions ++ [sub] ∧
      sub.status = "failed" ∧ sub.testResults = [missingStructureEntry] ∧
      sub.score ≤ 20 ∧
      (∀ a, analysisResult = Except.ok a → sub.score = min 20 a.score) ∧
      (∀ e, analysisResult = Except.error e → sub.score = 20)) := by
  have hsim := simulate_precheck_failed data.code problem randomness hPre
  refine ⟨hsim, ?_⟩
  cases analysisResult with
  | ok a =>
    have h := postSubmissions_ok_eq assignment data randomness a submissions problem
      hActive hProblem
    rw [hsim] at h
    dsimp only at h
    refine ⟨_, a.feedback, a.suggestions,
      by rw [h], by rw [h], rfl, rfl, min_le_left _ _, ?_, ?_⟩
    · intro a2 ha2
      cases ha2
      rfl
    · intro e he
      cases he
  | error e =>
    have h := postSubmissions_error_eq assignment data randomness e submissions problem
      hActive hProblem
    rw [hsim] at h
    dsimp only at h
    refine ⟨_, "Code submitted successfully. Basic validation completed.", [],
      by rw [h], by rw [h], rfl, rfl, by norm_num, ?_, ?_⟩
    · intro a2 ha2
      cases ha2
    · intro e2 he2
      rfl

/-- Counterexample to C1 as stated: the code `"printf"` fails the structural
pre-check against the fixture hello-world assignment, yet (with the
credential-free analyzer, whose score here is 15) the persisted submission
carries score 15, not 20 — the merge `min(20, analysis)` lowered it. -/
theorem precheck_failure_score_not_always_20 :
    (includes "printf" "int main" && includes "printf" "#include" &&
      includes "printf" "return") = false ∧
    ((postSubmissions (some sampleAssignment) sampleSubmissionData (fun _ => true)
        (Except.ok (analyzeCodeBuiltIn "printf" sampleProblem)) []).2.map
      (fun s => (s.status, s.score))) = [("failed", 15)] ∧
    (15 : Int) ≠ 20 := by
  decide

/-- Witness for C1 (amended) at the concrete fixture inputs. -/
theorem precheck_failure_status_and_merged_score_witness :
    simulate "printf" sampleProblem (fun _ => true) =
      { status := "failed", testResults := [missingStructureEntry], score := 20 } ∧
    (∃ sub fb sg,
      (postSubmissions (some sampleAssignment) sampleSubmissionData (fun _ => true)
          (Except.ok (analyzeCodeBuiltIn "printf" sampleProblem)) []).1 =
        SubmitResponse.ok sub [missingStructureEntry] fb sg ∧
      (postSubmissions (some sampleAssignment) sampleSubmissionData (fun _ => true)
          (Except.ok (analyzeCodeBuiltIn "printf" sampleProblem)) []).2 =
        [] ++ [sub] ∧
      sub.status = "failed" ∧ sub.testResults = [missingStructureEntry] ∧
      sub.score ≤ 20 ∧
      (∀ a : Analysis,
        (Except.ok (analyzeCodeBuiltIn "printf" sampleProblem) : Except String Analysis) =
          Except.ok a → sub.score = min 20 a.score) ∧
      (∀ e : String,
        (Except.ok (analyzeCodeBuiltIn "printf" sampleProblem) : Except String Analysis) =
          Except.error e → sub.score = 20)) :=
  precheck_failure_status_and_merged_score sampleAssignment sampleSubmissionData
    (fun _ => true) (Except.ok (analyzeCodeBuiltIn "printf" sampleProblem)) []
    sampleProblem rfl rfl (by decide)

/-- C2: for every successfully evaluated submission (an `ok` response), the
persisted score is at most the simulated aggregate score — the merge with
the analysis score is a minimum (and on the path where the analysis call
throws, the simulated score is persisted unchanged).  The non-empty
test-case hypothesis keeps the model inside JS-representable arithmetic
(zero test cases would make the JS aggregate `NaN`). -/
theorem submission_score_le_simulated (assignment : Assignment)
    (data : SubmissionData) (randomness : Nat → Bool)
    (analysisResult : Except String Analysis)
    (submissions : List SubmissionRec) (problem : Problem)
    (hActive : assignment.isActive = true)
    (hProblem : assignment.problems[data.problemIndex]? = some problem)
    (hCases : problem.testCases ≠ [])
    (sub : SubmissionRec) (tr : List TestResultEntry) (fb : String) (sg : List String)
    (hres : (postSubmissions (some assignment) data randomness analysisResult submissions).1 =
      SubmitResponse.ok sub tr fb sg) :
    sub.score ≤ (simulate data.code problem randomness).score := by
  simp only [postSubmissions, hActive, hProblem, Bool.not_true, Bool.false_eq_true,
    if_false] at hres
  cases analysisResult with
  | ok a =>
    simp only [SubmitResponse.ok.injEq] at hres
    rw [← hres.1]
    exact min_le_left _ _
  | error e =>
    simp only [SubmitResponse.ok.injEq] at hres
    rw [← hres.1]

/-- Witness for C2 at the concrete fixture inputs (persisted score 15,
simulated score 20). -/
theorem submission_score_le_simulated_witness :
    ({ studentId := "student_1", assignmentId := "assignment_1", problemIndex := 0,
       code := "printf", status := "failed", testResults := [missingStructureEntry],
       score := 15 } : SubmissionRec).score ≤
      (simulate "printf" sampleProblem (fun _ => true)).score :=
  submission_score_le_simulated sampleAssignment sampleSubmissionData (fun _ => true)
    (Except.ok (analyzeCodeBuiltIn "printf" sampleProblem)) [] sampleProblem rfl rfl
    (by decide)
    { studentId := "student_1", assignmentId := "assignment_1", problemIndex := 0,
      code := "printf", status := "failed", testResults := [missingStructureEntry],
      score := 15 }
    [missingStructureEntry]
    (analyzeCodeBuiltIn "printf" sampleProblem).feedback
    (analyzeCodeBuiltIn "printf" sampleProblem).suggestions (by decide)

/-- C6: if the analysis call throws during submission evaluation, the error
is not surfaced — a submission is still persisted carrying the simulated
status, test results and score, and the response carries the generic
feedback string and an empty suggestions list. -/
theorem analysis_failure_persists_simulated (assignment : Assignment)
    (data : SubmissionData) (randomness : Nat → Bool) (e : String)
    (submissions : List SubmissionRec) (problem : Problem)
    (hActive : assignment.isActive = true)
    (hProblem : assignment.problems[data.problemIndex]? = some problem) :
    postSubmissions (some assignment) data randomness (Except.error e) submissions =
      (SubmitResponse.ok
        { studentId := data.studentId, assignmentId := data.assignmentId,
          problemIndex := data.problemIndex, code := data.code,
          status := (simulate data.code problem randomness).status,
          testResults := (simulate data.code problem randomness).testResults,
          score := (simulate data.code problem randomness).score }
        (simulate data.code problem randomness).testResults
        "Code submitted successfully. Basic validation completed." [],
        submissions ++
          [{ studentId := data.studentId, assignmentId := data.assignmentId,
             problemIndex := data.problemIndex, code := data.code,
             status := (simulate data.code problem randomness).status,
             testResults := (simulate data.code problem randomness).testResults,
             score := (simulate data.code problem randomness).score }]) :=
  postSubmissions_error_eq assignment data randomness e submissions problem hActive hProblem

/-- Witness for C6 at the concrete fixture inputs. -/
theorem analysis_failure_persists_simulated_witness :
    postSubmissions (some sampleAssignment) sampleSubmissionData (fun _ => true)
        (Except.error "boom") [] =
      (SubmitResponse.ok
        { studentId := "student_1", assignmentId := "assignment_1",
          problemIndex := 0, code := "printf",
          status := (simulate "printf" sampleProblem (fun _ => true)).status,
          testResults := (simulate "printf" sampleProblem (fun _ => true)).testResults,
          score := (simulate "printf" sampleProblem (fun _ => true)).score }
        (simulate "printf" sampleProblem (fun _ => true)).testResults
        "Code submitted successfully. Basic validation completed." [],
        [] ++
          [{ studentId := "student_1", assignmentId := "assignment_1",
             problemIndex := 0, code := "printf",
             status := (simulate "printf" sampleProblem (fun _ => true)).status,
             testResults := (simulate "printf" sampleProblem (fun _ => true)).testResults,
             score := (simulate "printf" sampleProblem (fun _ => true)).score }]) :=
  analysis_failure_persists_simulated sampleAssignment sampleSubmissionData
    (fun _ => true) "boom" [] sampleProblem rfl rfl

/-- C7: a submission whose `problemIndex` does not address an existing entry
of the resolved assignment's problem list (in particular any index `≥` the
list length) is rejected as a bad request and the stored submission state is
unchanged — nothing is persisted. -/
theorem invalid_problem_index_rejected (assignment : Assignment)
    (data : SubmissionData) (randomness : Nat → Bool)
    (analysisResult : Except String Analysis)
    (submissions : List SubmissionRec)
    (hActive : assignment.isActive = true)
    (hIdx : assignment.problems.length ≤ data.problemIndex) :
    postSubmissions (some assignment) data randomness analysisResult submissions =
      (SubmitResponse.badRequest "Invalid problem index", submissions) := by
  simp only [postSubmissions, hActive, List.getElem?_eq_none hIdx, Bool.not_true,
    Bool.false_eq_true, if_false]

/-- Witness for C7 at the concrete fixture inputs (index 1 into a one-problem
assignment). -/
theorem invalid_problem_index_rejected_witness :
    postSubmissions (some sampleAssignment) outOfRangeSubmission (fun _ => true)
        (Except.ok (analyzeCodeBuiltIn "x" sampleProblem)) [] =
      (SubmitResponse.badRequest "Invalid problem index", []) :=
  invalid_problem_index_rejected sampleAssignment outOfRangeSubmission (fun _ => true)
    (Except.ok (analyzeCodeBuiltIn "x" sampleProblem)) [] rfl (by decide)
